import Mathlib

set_option maxRecDepth 8000

/- Verification of the module-federation sharing code: the SharePlugin
   constructor (src/packages/enhanced/src/lib/sharing/SharePlugin.ts), the
   Next.js server-build helpers (applyServerPlugins source file), and the
   dynamicLoad bulk loader. -/

/-- A value that is either a module-specifier string or the literal `false`,
as allowed for the `import` field of a shared configuration. -/
inductive ImportVal
  | str (s : String)
  | fls
  deriving DecidableEq, Repr

/-- A version value: a version or range string, or the literal `false`. -/
inductive VersionVal
  | str (s : String)
  | fls
  deriving DecidableEq, Repr

/-- The options object for one shared key (TypeScript `SharedConfig`); a
field the user leaves out is `none`. The TS field `import` is spelled
`import_` here. -/
structure SharedConfig where
  import_ : Option ImportVal := none
  shareKey : Option String := none
  shareScope : Option String := none
  requiredVersion : Option VersionVal := none
  strictVersion : Option Bool := none
  singleton : Option Bool := none
  packageName : Option String := none
  eager : Option Bool := none
  version : Option VersionVal := none
  deriving DecidableEq, Repr

/-- An element of an array-form shared entry: a string, or a value of any
other runtime type. -/
inductive ArrayItem
  | str (s : String)
  | other
  deriving DecidableEq, Repr

/-- The value attached to one key of the `shared` object: a bare string, an
array, or a nested options object. -/
inductive SharedValue
  | str (s : String)
  | arr (items : List ArrayItem)
  | obj (cfg : SharedConfig)
  deriving DecidableEq, Repr

/-- The user's `shared` declaration: a list of bare specifiers or a
key-to-value mapping. -/
inductive SharedDecl
  | list (specs : List ArrayItem)
  | map (entries : List (String × SharedValue))
  deriving DecidableEq, Repr

/-- The simple-value normalizer `SharePlugin` passes to `parseOptions`
(SharePlugin.ts lines 28-41): a non-string item is rejected with
`Unexpected array in shared`; a string equal to the key, or not recognised
as a required-version expression, becomes the `import`; otherwise the string
becomes the `requiredVersion` and the key the `import`. The predicate
`isRequiredVersion` (from the sharing utils) is kept as an explicit
parameter: everything proved below holds for any choice of it. -/
def normalizeSimple (isRequiredVersion : String → Bool) (item : ArrayItem)
    (key : String) : Except String SharedConfig :=
  match item with
  | ArrayItem.str s =>
      if s == key || !isRequiredVersion s then
        Except.ok { import_ := some (ImportVal.str s) }
      else
        Except.ok { import_ := some (ImportVal.str key),
                    requiredVersion := some (VersionVal.str s) }
  | ArrayItem.other => Except.error "Unexpected array in shared"

/-- Sequence a list of fallible results in order, stopping at the first
error. -/
def collectEntries {α β : Type} (f : α → Except String β) :
    List α → Except String (List β)
  | [] => Except.ok []
  | x :: xs =>
    match f x with
    | Except.error m => Except.error m
    | Except.ok y =>
      match collectEntries f xs with
      | Except.error m => Except.error m
      | Except.ok ys => Except.ok (y :: ys)

/-- Modelled from the spec: the per-entry step of `parseOptions`
(`../container/options`, whose source is not among the files): a string
value is normalized with `normalizeSimple`; each value of an array entry is
normalized with `normalizeSimple`, so an array value that is not a string is
a config error; an object value is passed through unchanged, since
`SharePlugin` uses the identity as its object normalizer. -/
def parseEntry (isRequiredVersion : String → Bool) :
    String × SharedValue → Except String (List (String × SharedConfig))
  | (key, SharedValue.str s) =>
      (normalizeSimple isRequiredVersion (ArrayItem.str s) key).map
        (fun c => [(key, c)])
  | (key, SharedValue.arr items) =>
      (collectEntries (fun it => normalizeSimple isRequiredVersion it key)
          items).map
        (fun cs => cs.map (fun c => (key, c)))
  | (key, SharedValue.obj cfg) => Except.ok [(key, cfg)]

/-- Modelled from the spec: `parseOptions` — the declaration is either a
list of bare specifiers, each treated as its own key, or a mapping processed
entry-wise in order; the result is the ordered list of
`(key, SharedConfig)` pairs. -/
def parseOptions (isRequiredVersion : String → Bool) :
    SharedDecl → Except String (List (String × SharedConfig))
  | SharedDecl.list specs =>
      collectEntries
        (fun it =>
          match it with
          | ArrayItem.str s =>
              (normalizeSimple isRequiredVersion (ArrayItem.str s) s).map
                (fun c => (s, c))
          | ArrayItem.other => Except.error "Unexpected options format")
        specs
  | SharedDecl.map entries =>
      (collectEntries (parseEntry isRequiredVersion) entries).map List.flatten

/-- JavaScript `a || b` for an optional string `a`: an absent value and the
empty string are falsy, so both fall through to `b`. -/
def jsOrString (a : Option String) (b : String) : String :=
  match a with
  | some s => if s = "" then b else s
  | none => b

/-- The consume-side record derived for one shared entry (TypeScript
`ConsumesConfig`). -/
structure ConsumesConfig where
  import_ : Option ImportVal
  shareKey : String
  shareScope : Option String
  requiredVersion : Option VersionVal
  strictVersion : Option Bool
  singleton : Option Bool
  packageName : Option String
  eager : Option Bool
  deriving DecidableEq, Repr

/-- The provide-side record derived for one shared entry (TypeScript
`ProvidesConfig`). -/
structure ProvidesConfig where
  shareKey : String
  shareScope : Option String
  version : Option VersionVal
  eager : Option Bool
  deriving DecidableEq, Repr

/-- The consumes record built for one parsed entry (SharePlugin.ts lines
44-57): `shareKey` is `options.shareKey || key`; the other fields are copied
from the parsed config. -/
def consumesEntry (key : String) (o : SharedConfig) : ConsumesConfig where
  import_ := o.import_
  shareKey := jsOrString o.shareKey key
  shareScope := o.shareScope
  requiredVersion := o.requiredVersion
  strictVersion := o.strictVersion
  singleton := o.singleton
  packageName := o.packageName
  eager := o.eager

/-- SharePlugin.ts lines 44-57: one single-key consumes record per parsed
entry, keyed by the declaration key. -/
def makeConsumes (l : List (String × SharedConfig)) :
    List (String × ConsumesConfig) :=
  l.map (fun e => (e.1, consumesEntry e.1 e.2))

/-- Whether a shared `import` field holds the literal `false`. -/
def importIsFalse : Option ImportVal → Bool
  | some ImportVal.fls => true
  | _ => false

/-- JavaScript `options.import || key` (SharePlugin.ts line 61): the import
string when it is non-empty, the declaration key otherwise. -/
def provideKeyOf (key : String) (o : SharedConfig) : String :=
  match o.import_ with
  | some (ImportVal.str s) => if s = "" then key else s
  | _ => key

/-- The provides record built for one parsed entry (SharePlugin.ts lines
58-67). -/
def providesEntry (key : String) (o : SharedConfig) : ProvidesConfig where
  shareKey := jsOrString o.shareKey key
  shareScope := o.shareScope
  version := o.version
  eager := o.eager

/-- SharePlugin.ts lines 58-67: entries whose `import` is `false` are
dropped; each remaining entry yields one record keyed by
`options.import || key`. -/
def makeProvides (l : List (String × SharedConfig)) :
    List (String × ProvidesConfig) :=
  (l.filter (fun e => !importIsFalse e.2.import_)).map
    (fun e => (provideKeyOf e.1 e.2, providesEntry e.1 e.2))

/-- The `SharePlugin` constructor (SharePlugin.ts lines 25-72): parse the
shared declaration, then derive the consumes and provides lists; a parse
error aborts the construction with no output. -/
def sharePluginCtor (isRequiredVersion : String → Bool) (decl : SharedDecl) :
    Except String
      (List (String × ConsumesConfig) × List (String × ProvidesConfig)) :=
  (parseOptions isRequiredVersion decl).map
    (fun l => (makeConsumes l, makeProvides l))

/-- Modelled from the spec: a loaded remote container as `dynamicLoad` sees
it — its exposed module-name list and its module getter. -/
structure RemoteContainerModel where
  moduleNameList : List String
  getModule : String → Except String String

/-- A per-entry error of the bulk loader: remote name, optional module name,
error kind and message. -/
structure LoadErrorEntry where
  remote : String
  moduleName : Option String
  kind : String
  message : String
  deriving DecidableEq, Repr

/-- Modelled from the spec: step 4 of `dynamicLoad` — load every module a
remote exposes; a failing module is recorded as one `ModuleLoadError` entry
and does not stop the other modules of the same remote. -/
def loadModules (nm : String) (g : String → Except String String) :
    List String → List (String × String) × List LoadErrorEntry
  | [] => ([], [])
  | m :: ms =>
    match g m with
    | Except.ok v =>
        ((nm ++ "/" ++ m, v) :: (loadModules nm g ms).1,
         (loadModules nm g ms).2)
    | Except.error msg =>
        ((loadModules nm g ms).1,
         ⟨nm, some m, "ModuleLoadError", msg⟩ :: (loadModules nm g ms).2)

/-- Modelled from the spec: steps 2-4 of `dynamicLoad` for one remote — a
failed entry fetch is recorded as a single `RemoteLoadError` entry; a
fetched container has all its exposed modules loaded. -/
def loadRemote (fetch : String → String → Except String RemoteContainerModel)
    (nm url : String) : List (String × String) × List LoadErrorEntry :=
  match fetch nm url with
  | Except.error msg => ([], [⟨nm, none, "RemoteLoadError", msg⟩])
  | Except.ok c => loadModules nm c.getModule c.moduleNameList

/-- Modelled from the spec: `dynamicLoad` — sweep the remote-url map in
order, aggregate the loaded `"remote/module"` values and the per-entry
errors, and always return the pair (the call never rejects). -/
def dynamicLoad (fetch : String → String → Except String RemoteContainerModel) :
    List (String × String) → List (String × String) × List LoadErrorEntry
  | [] => ([], [])
  | e :: rest =>
    ((loadRemote fetch e.1 e.2).1 ++ (dynamicLoad fetch rest).1,
     (loadRemote fetch e.1 e.2).2 ++ (dynamicLoad fetch rest).2)

/-- JavaScript `String.prototype.startsWith` on character lists. -/
def hasPrefixChars : List Char → List Char → Bool
  | _, [] => true
  | [], _ :: _ => false
  | c :: cs, d :: ds => c == d && hasPrefixChars cs ds

/-- JavaScript `String.prototype.includes` on character lists. -/
def hasSubChars : List Char → List Char → Bool
  | [], sub => sub.isEmpty
  | c :: cs, sub => hasPrefixChars (c :: cs) sub || hasSubChars cs sub

/-- JavaScript `s.startsWith(p)`. -/
def strStarts (s p : String) : Bool := hasPrefixChars s.data p.data

/-- JavaScript `s.includes(sub)`. -/
def strContains (s sub : String) : Bool := hasSubChars s.data sub.data

/-- JavaScript `s.split(" ")` on character lists. -/
def splitSpaceChars : List Char → List (List Char)
  | [] => [[]]
  | c :: cs =>
    if c == ' ' then [] :: splitSpaceChars cs
    else
      match splitSpaceChars cs with
      | [] => [[c]]
      | r :: rs => (c :: r) :: rs

/-- JavaScript `s.split(" ")`. -/
def jsSplitSpace (s : String) : List String :=
  (splitSpaceChars s.data).map (fun cs => ⟨cs⟩)

/-- The part of the webpack externals context the patched function reads. -/
structure ExternalsCtx where
  request : Option String
  deriving DecidableEq, Repr

/-- Outcome of the patched externals function: resolve with `undefined`
(bundle the module), resolve with the original external string, or throw. -/
inductive ExternalsResult
  | bundled
  | external (s : String)
  | thrown
  deriving DecidableEq, Repr

/-- `options.shared?.[key]?.import`: property access on a string or array
shared value yields `undefined`. -/
def sharedImportOf : SharedValue → Option ImportVal
  | SharedValue.obj cfg => cfg.import_
  | _ => none

/-- The bundling test of the patched externals function (server-build helper
source, lines 118-130): the request names one of the federation helper
packages, or contains a configured shared key whose `import` is not
`false`. -/
def bundleCond (shared : List (String × SharedValue)) (r : String) : Bool :=
  strContains r "@module-federation/utilities" ||
  strContains r "internal-delegate-hoist" ||
  shared.any (fun e => !importIsFalse (sharedImportOf e.2) && strContains r e.1) ||
  strContains r "@module-federation/dashboard-plugin"

/-- Server-build helper source, lines 137-151: handling of the original
externals function's result — a falsy result resolves `undefined`; otherwise
the second space-separated token (`fromNext.split(' ')[1]`) is inspected,
and when it does not exist the property access on `undefined` throws. -/
def afterOriginal : Option String → ExternalsResult
  | none => ExternalsResult.bundled
  | some s =>
    if s = "" then ExternalsResult.bundled
    else
      match (jsSplitSpace s).drop 1 with
      | [] => ExternalsResult.thrown
      | tok :: _ =>
        if strStarts tok "next" || strStarts tok "react" then
          ExternalsResult.external s
        else ExternalsResult.bundled

/-- The replacement externals function installed by `handleServerExternals`
(server-build helper source, lines 116-152), with the original externals
function modelled by the result it resolves for a context. -/
def replacementExternals (shared : List (String × SharedValue))
    (original : ExternalsCtx → Option String) (ctx : ExternalsCtx) :
    ExternalsResult :=
  match ctx.request with
  | some r =>
      if r != "" && bundleCond shared r then ExternalsResult.bundled
      else afterOriginal (original ctx)
  | none => afterOriginal (original ctx)

/-- The `library` options record: `{ type, name }`. -/
structure LibraryOptions where
  type : String
  name : Option String
  deriving DecidableEq, Repr

/-- The fields of `ModuleFederationPluginOptions` this development tracks. -/
structure MFOptions where
  name : Option String
  filename : Option String
  library : Option LibraryOptions
  remotes : List (String × String)
  exposes : List (String × String)
  shared : List (String × SharedValue)
  deriving DecidableEq, Repr

/-- `configureServerLibraryAndFilename` (server-build helper source, lines
72-83): set `library` to a commonjs-module descriptor named after the
container and replace `filename` by its basename. `path.basename` is kept
abstract as a parameter; on an absent `filename` it throws. -/
def configureServerLibraryAndFilename (basename : String → String)
    (options : MFOptions) : Except String MFOptions :=
  match options.filename with
  | none => Except.error "TypeError: path.basename expects a string"
  | some f =>
      Except.ok
        { options with
            library := some { type := "commonjs-module", name := options.name }
            filename := some (basename f) }

example : strContains "abc internal-delegate-hoist xyz" "internal-delegate-hoist" = true := by decide
example : strContains "abc" "" = true := by decide
example : jsSplitSpace "commonjs next/dist" = ["commonjs", "next/dist"] := by decide
example : jsSplitSpace "foo" = ["foo"] := by decide
example : jsSplitSpace "" = [""] := by decide
example : jsSplitSpace "a  b" = ["a", "", "b"] := by decide

/-- A membership witness for a failing element makes `collectEntries`
fail. -/
theorem collectEntries_error {α β : Type} (f : α → Except String β) :
    ∀ (l : List α) (x : α), x ∈ l → (∃ m, f x = Except.error m) →
      ∃ m2, collectEntries f l = Except.error m2 := by
  intro l
  induction l with
  | nil => intro x hx; cases hx
  | cons a as ih =>
    intro x hx hm
    rcases List.mem_cons.mp hx with h | h
    · obtain ⟨m, hm⟩ := hm
      subst h
      exact ⟨m, by simp [collectEntries, hm]⟩
    · cases hfa : f a with
      | error m => exact ⟨m, by simp [collectEntries, hfa]⟩
      | ok y =>
        obtain ⟨m2, hc⟩ := ih x h hm
        exact ⟨m2, by simp [collectEntries, hfa, hc]⟩

/-- Claim C1: a bare string entry `(key, item)` is classified by the parser
as an import path when the item equals the key or is not a version-range
expression, and as a required version (with the key as import path)
otherwise. -/
theorem C1_bare_string_classification (isRV : String → Bool) (key item : String) :
    normalizeSimple isRV (ArrayItem.str item) key =
      (if item = key ∨ isRV item = false then
        Except.ok { import_ := some (ImportVal.str item) }
      else
        Except.ok { import_ := some (ImportVal.str key),
                    requiredVersion := some (VersionVal.str item) }) := by
  by_cases h1 : item = key
  · simp [normalizeSimple, h1]
  · by_cases h2 : isRV item = false
    · simp [normalizeSimple, h1, h2]
    · have h2t : isRV item = true := by
        cases h : isRV item
        · exact absurd h h2
        · rfl
      simp [normalizeSimple, h1, h2t, h2]

/-- Claim C2 (counterexample): an entry whose `import` is the empty string
is keyed by the declaration key, not by the entry's import as the claim
states for present imports. -/
theorem C2_provides_counterexample :
    makeProvides [("react", { import_ := some (ImportVal.str "") })] =
      [("react", { shareKey := "react", shareScope := none,
                   version := none, eager := none })] ∧
    ("react" : String) ≠ "" := ⟨rfl, by decide⟩

/-- Claim C2 (amended): each parsed entry yields no provides record when its
`import` is `false` and exactly one otherwise, keyed by the entry's import
when that is a non-empty string and by the declaration key when the import
is absent or empty; the registry is a multimap — records of distinct entries
are all kept, none overwrites another. -/
theorem C2_provides_shape (l : List (String × SharedConfig)) :
    (makeProvides l).length =
      (l.filter (fun e => !importIsFalse e.2.import_)).length ∧
    (∀ e ∈ l, importIsFalse e.2.import_ = false →
      (provideKeyOf e.1 e.2, providesEntry e.1 e.2) ∈ makeProvides l) ∧
    (∀ key o, importIsFalse o.import_ = true → makeProvides [(key, o)] = []) ∧
    (∀ l2, makeProvides (l ++ l2) = makeProvides l ++ makeProvides l2) ∧
    (∀ key o s, o.import_ = some (ImportVal.str s) → s ≠ "" →
      provideKeyOf key o = s) ∧
    (∀ key o, o.import_ = none → provideKeyOf key o = key) ∧
    (∀ key o, o.import_ = some (ImportVal.str "") → provideKeyOf key o = key) := by
  refine ⟨by simp [makeProvides], ?_, ?_, ?_, ?_, ?_, ?_⟩
  · intro e he hf
    exact List.mem_map_of_mem _ (List.mem_filter.mpr ⟨he, by simp [hf]⟩)
  · intro key o hi
    simp [makeProvides, hi]
  · intro l2
    simp [makeProvides, List.filter_append]
  · intro key o s hi hs
    simp [provideKeyOf, hi, hs]
  · intro key o hi
    simp [provideKeyOf, hi]
  · intro key o hi
    simp [provideKeyOf, hi]

/-- Claim C3 (counterexample): a parsed entry whose `shareKey` is given as
the empty string gets the declaration key as its consumes `shareKey`, not
the given value as the claim states. -/
theorem C3_consumes_counterexample :
    makeConsumes [("react", { shareKey := some "" })] =
      [("react", consumesEntry "react" { shareKey := some "" })] ∧
    (consumesEntry "react" { shareKey := some "" }).shareKey = "react" ∧
    ("react" : String) ≠ "" := ⟨rfl, rfl, by decide⟩

/-- Claim C3 (amended): every parsed entry yields exactly one consumes
record, at its own position and keyed by the declaration key, whose
`shareKey` is the config's `shareKey` when given and non-empty and the
declaration key otherwise, and whose remaining fields are copied from the
parsed config. -/
theorem C3_consumes_shape (l : List (String × SharedConfig)) (i : Nat)
    (h : i < l.length) :
    (makeConsumes l).length = l.length ∧
    (makeConsumes l)[i]? = some ((l[i]).1, consumesEntry (l[i]).1 (l[i]).2) ∧
    (consumesEntry (l[i]).1 (l[i]).2).shareKey =
      (match (l[i]).2.shareKey with
       | some s => if s = "" then (l[i]).1 else s
       | none => (l[i]).1) ∧
    (consumesEntry (l[i]).1 (l[i]).2).import_ = (l[i]).2.import_ ∧
    (consumesEntry (l[i]).1 (l[i]).2).shareScope = (l[i]).2.shareScope ∧
    (consumesEntry (l[i]).1 (l[i]).2).requiredVersion = (l[i]).2.requiredVersion ∧
    (consumesEntry (l[i]).1 (l[i]).2).strictVersion = (l[i]).2.strictVersion ∧
    (consumesEntry (l[i]).1 (l[i]).2).singleton = (l[i]).2.singleton ∧
    (consumesEntry (l[i]).1 (l[i]).2).packageName = (l[i]).2.packageName ∧
    (consumesEntry (l[i]).1 (l[i]).2).eager = (l[i]).2.eager := by
  refine ⟨by simp [makeConsumes], ?_, rfl, rfl, rfl, rfl, rfl, rfl, rfl, rfl⟩
  simp [makeConsumes, List.getElem?_map, List.getElem?_eq_getElem h]

/-- Witness for C3: the amended shape at a concrete one-entry list. -/
theorem C3_consumes_witness :
    (makeConsumes [("react", { shareKey := some "x" })]).length =
      [(("react" : String), ({ shareKey := some "x" } : SharedConfig))].length :=
  (C3_consumes_shape [("react", { shareKey := some "x" })] 0 (by decide)).1

/-- Claim C4: an array-form entry containing a non-string value makes the
constructor fail with a config error, so no consumes or provides output is
produced for any entry. -/
theorem C4_array_nonstring_fails (isRV : String → Bool)
    (entries : List (String × SharedValue)) (key : String)
    (items : List ArrayItem)
    (hmem : (key, SharedValue.arr items) ∈ entries)
    (hbad : ArrayItem.other ∈ items) :
    ∃ m, sharePluginCtor isRV (SharedDecl.map entries) = Except.error m := by
  have h1 : ∃ m, parseEntry isRV (key, SharedValue.arr items) = Except.error m := by
    obtain ⟨m, hc⟩ :=
      collectEntries_error (fun it => normalizeSimple isRV it key) items
        ArrayItem.other hbad ⟨"Unexpected array in shared", rfl⟩
    exact ⟨m, by simp [parseEntry, hc, Except.map]⟩
  obtain ⟨m, hp⟩ := collectEntries_error (parseEntry isRV) entries _ hmem h1
  exact ⟨m, by simp [sharePluginCtor, parseOptions, hp, Except.map]⟩

/-- Witness for C4: a concrete declaration with a non-string array value. -/
theorem C4_witness :
    ∃ m, sharePluginCtor (fun _ => false)
        (SharedDecl.map [("react", SharedValue.arr [ArrayItem.other])]) =
      Except.error m :=
  C4_array_nonstring_fails (fun _ => false) _ "react" [ArrayItem.other]
    (by simp) (by simp)

/-- Claim C5 (counterexample): an entry that specifies no `shareScope` is
parsed into consumes and provides records whose `shareScope` is absent, not
the string `default`. -/
theorem C5_no_default_counterexample :
    sharePluginCtor (fun _ => false) (SharedDecl.map [("react", SharedValue.obj {})]) =
      Except.ok ([("react", consumesEntry "react" {})],
                 [("react", providesEntry "react" {})]) ∧
    (consumesEntry "react" {}).shareScope = none ∧
    (providesEntry "react" {}).shareScope = none ∧
    (none : Option String) ≠ some "default" := ⟨rfl, rfl, rfl, by decide⟩

/-- Claim C5 (amended): the parser copies optional fields through unchanged
rather than defaulting them; in particular an entry without `shareScope`
yields consumes and provides records with `shareScope` unset. -/
theorem C5_fields_copied (key : String) (o : SharedConfig)
    (h : o.shareScope = none) :
    (consumesEntry key o).shareScope = none ∧
    (providesEntry key o).shareScope = none ∧
    (consumesEntry key o).requiredVersion = o.requiredVersion ∧
    (consumesEntry key o).strictVersion = o.strictVersion ∧
    (consumesEntry key o).singleton = o.singleton ∧
    (consumesEntry key o).eager = o.eager ∧
    (providesEntry key o).version = o.version ∧
    (providesEntry key o).eager = o.eager :=
  ⟨by simp [consumesEntry, h], by simp [providesEntry, h],
   rfl, rfl, rfl, rfl, rfl, rfl⟩

/-- Witness for C5: the amended statement at a concrete entry. -/
theorem C5_witness : (consumesEntry "react" {}).shareScope = none :=
  (C5_fields_copied "react" {} rfl).1

/-- `a || b` is non-empty when `b` is. -/
theorem jsOrString_ne_empty (a : Option String) (b : String) (hb : b ≠ "") :
    jsOrString a b ≠ "" := by
  cases a with
  | none => simpa [jsOrString] using hb
  | some s => by_cases hs : s = "" <;> simp [jsOrString, hs, hb]

/-- Claim C6: when every declaration key is non-empty, every consumes and
provides record has a non-empty `shareKey`. -/
theorem C6_sharekey_nonempty (l : List (String × SharedConfig))
    (h : ∀ e ∈ l, e.1 ≠ "") :
    (∀ p ∈ makeConsumes l, p.2.shareKey ≠ "") ∧
    (∀ p ∈ makeProvides l, p.2.shareKey ≠ "") := by
  constructor
  · intro p hp
    obtain ⟨e, he, rfl⟩ := List.mem_map.mp hp
    exact jsOrString_ne_empty _ _ (h e he)
  · intro p hp
    obtain ⟨e, he, rfl⟩ := List.mem_map.mp hp
    exact jsOrString_ne_empty _ _ (h e (List.mem_of_mem_filter he))

/-- Witness for C6: a concrete declaration with a non-empty key. -/
theorem C6_witness :
    (("react", consumesEntry "react" ({} : SharedConfig)).2.shareKey ≠ "") :=
  (C6_sharekey_nonempty [("react", {})] (by decide)).1 _ (by simp [makeConsumes])

/-- Claim C7: feeding the parser's normalized output back to the parser as a
key-to-options-object mapping reproduces the same normalized output. -/
theorem C7_parser_idempotent (isRV : String → Bool)
    (l : List (String × SharedConfig)) :
    parseOptions isRV
        (SharedDecl.map (l.map (fun e => (e.1, SharedValue.obj e.2)))) =
      Except.ok l := by
  induction l with
  | nil => rfl
  | cons e rest ih =>
    simp only [List.map_cons, parseOptions, collectEntries, parseEntry] at ih ⊢
    cases hc : collectEntries (parseEntry isRV)
        (rest.map (fun e => (e.1, SharedValue.obj e.2))) with
    | error m => rw [hc] at ih; simp [Except.map] at ih
    | ok ys =>
      rw [hc] at ih
      simp only [Except.map] at ih ⊢
      simp only [List.flatten, Except.ok.injEq] at ih ⊢
      simp [ih]

/-- A remote whose modules all load contributes every `"remote/module"` key
and no error. -/
theorem loadModules_allOk (nm : String) (g : String → Except String String) :
    ∀ ms : List String, (∀ m ∈ ms, ∃ v, g m = Except.ok v) →
      (loadModules nm g ms).1.map Prod.fst = ms.map (fun m => nm ++ "/" ++ m) ∧
      (loadModules nm g ms).2 = [] := by
  intro ms
  induction ms with
  | nil => intro hall; exact ⟨rfl, rfl⟩
  | cons m ms ih =>
    intro hall
    obtain ⟨v, hv⟩ := hall m (List.mem_cons_self m ms)
    obtain ⟨h1, h2⟩ := ih (fun x hx => hall x (List.mem_cons_of_mem m hx))
    constructor
    · simp [loadModules, hv, h1]
    · simp [loadModules, hv, h2]

/-- Claim C8: with remote A fetched successfully (all its modules loading)
and remote B's entry fetch failing, `dynamicLoad` still returns: the loaded
map holds exactly A's modules under `"A/name"` keys and the error list holds
exactly one `RemoteLoadError` entry for B. -/
theorem C8_partial_failure
    (fetch : String → String → Except String RemoteContainerModel)
    (nA uA nB uB msg : String) (cA : RemoteContainerModel)
    (hA : fetch nA uA = Except.ok cA)
    (hAok : ∀ m ∈ cA.moduleNameList, ∃ v, cA.getModule m = Except.ok v)
    (hB : fetch nB uB = Except.error msg) :
    ((dynamicLoad fetch [(nA, uA), (nB, uB)]).1).map Prod.fst =
      cA.moduleNameList.map (fun m => nA ++ "/" ++ m) ∧
    (dynamicLoad fetch [(nA, uA), (nB, uB)]).2 =
      [⟨nB, none, "RemoteLoadError", msg⟩] := by
  obtain ⟨h1, h2⟩ := loadModules_allOk nA cA.getModule cA.moduleNameList hAok
  constructor
  · simp [dynamicLoad, loadRemote, hA, hB, h1]
  · simp [dynamicLoad, loadRemote, hA, hB, h2]

/-- Witness for C8: a concrete two-remote map where A succeeds and B's
fetch fails. -/
theorem C8_witness :
    ((dynamicLoad
        (fun n _ =>
          if n = "A" then
            Except.ok (⟨["m1", "m2"], fun m => Except.ok ("v:" ++ m)⟩ :
              RemoteContainerModel)
          else Except.error "down")
        [("A", "uA"), ("B", "uB")]).1).map Prod.fst =
      (["m1", "m2"] : List String).map (fun m => "A" ++ "/" ++ m) ∧
    (dynamicLoad
        (fun n _ =>
          if n = "A" then
            Except.ok (⟨["m1", "m2"], fun m => Except.ok ("v:" ++ m)⟩ :
              RemoteContainerModel)
          else Except.error "down")
        [("A", "uA"), ("B", "uB")]).2 =
      [⟨"B", none, "RemoteLoadError", "down"⟩] :=
  C8_partial_failure _ "A" "uA" "B" "uB" "down"
    ⟨["m1", "m2"], fun m => Except.ok ("v:" ++ m)⟩
    rfl (fun m _ => ⟨"v:" ++ m, rfl⟩) rfl

/-- Claim C9 (counterexample): two contexts where the replacement externals
function diverges from the claim — a request outside every bundling pattern
for which the original's result has no second space-separated token makes
the function throw instead of resolving `undefined`, and an empty request
that contains a configured shared key (the empty key) is passed to the
original externals function and externalized instead of being bundled
without invoking it. -/
theorem C9_externals_counterexample :
    replacementExternals [] (fun _ => some "foo") ⟨some "axios"⟩ =
      ExternalsResult.thrown ∧
    ExternalsResult.thrown ≠ ExternalsResult.bundled ∧
    replacementExternals [("", SharedValue.obj {})]
        (fun _ => some "commonjs next") ⟨some ""⟩ =
      ExternalsResult.external "commonjs next" ∧
    ExternalsResult.external "commonjs next" ≠ ExternalsResult.bundled :=
  ⟨rfl, by decide, rfl, by decide⟩

/-- Claim C9 (amended): for a non-empty request matching a bundling pattern
(the federation helper names, or a configured shared key with `import` not
`false`) the replacement resolves `undefined` whatever the original
externals function would answer; for every other context it defers to the
original's result, resolving `undefined` on a falsy result, preserving a
result whose second space-separated token starts with `next` or `react`,
resolving `undefined` when that token starts with neither, and throwing
when a non-empty result has no second token. -/
theorem C9_externals_amended (shared : List (String × SharedValue))
    (original : ExternalsCtx → Option String) (ctx : ExternalsCtx) :
    (∀ r, ctx.request = some r → r ≠ "" → bundleCond shared r = true →
      ∀ original2 : ExternalsCtx → Option String,
        replacementExternals shared original2 ctx = ExternalsResult.bundled) ∧
    (ctx.request = none →
      replacementExternals shared original ctx = afterOriginal (original ctx)) ∧
    (∀ r, ctx.request = some r → r = "" ∨ bundleCond shared r = false →
      replacementExternals shared original ctx = afterOriginal (original ctx)) ∧
    (original ctx = none → afterOriginal (original ctx) = ExternalsResult.bundled) ∧
    (∀ s, original ctx = some s → s = "" →
      afterOriginal (original ctx) = ExternalsResult.bundled) ∧
    (∀ s tok rest2, original ctx = some s → s ≠ "" →
      (jsSplitSpace s).drop 1 = tok :: rest2 →
      afterOriginal (original ctx) =
        (if strStarts tok "next" || strStarts tok "react" then
          ExternalsResult.external s
        else ExternalsResult.bundled)) ∧
    (∀ s, original ctx = some s → s ≠ "" → (jsSplitSpace s).drop 1 = [] →
      afterOriginal (original ctx) = ExternalsResult.thrown) := by
  refine ⟨?_, ?_, ?_, ?_, ?_, ?_, ?_⟩
  · intro r hr hne hb original2
    have hcond : (r != "" && bundleCond shared r) = true := by
      simp [hb, bne_iff_ne, hne]
    simp [replacementExternals, hr, hcond]
  · intro hr
    simp [replacementExternals, hr]
  · intro r hr hor
    rcases hor with rfl | hb
    · simp [replacementExternals, hr]
    · simp [replacementExternals, hr, hb]
  · intro hr
    simp [afterOriginal, hr]
  · intro s hs hse
    simp [afterOriginal, hs, hse]
  · intro s tok rest2 hs hne hdrop
    rw [hs]
    simp [afterOriginal, hne, hdrop]
  · intro s hs hne hdrop
    rw [hs]
    simp [afterOriginal, hne, hdrop]

/-- Witness for C9: the bundling branch at a concrete federation-helper
request, independent of the original externals function. -/
theorem C9_witness :
    replacementExternals [] (fun _ => some "commonjs axios")
        ⟨some "@module-federation/utilities/lib"⟩ = ExternalsResult.bundled :=
  (C9_externals_amended [] (fun _ => some "commonjs axios")
      ⟨some "@module-federation/utilities/lib"⟩).1
    "@module-federation/utilities/lib" rfl (by decide) (by decide) _

/-- Claim C10: on an options record with a string `filename`, the function
sets `library` to a commonjs-module descriptor carrying the container name,
replaces `filename` by its basename, and leaves every other field
unchanged. -/
theorem C10_configure_server (basename : String → String) (o : MFOptions)
    (f : String) (h : o.filename = some f) :
    ∃ o2, configureServerLibraryAndFilename basename o = Except.ok o2 ∧
      o2.library = some { type := "commonjs-module", name := o.name } ∧
      o2.filename = some (basename f) ∧
      o2.name = o.name ∧
      o2.remotes = o.remotes ∧
      o2.exposes = o.exposes ∧
      o2.shared = o.shared := by
  refine ⟨{ o with
              library := some { type := "commonjs-module", name := o.name }
              filename := some (basename f) }, ?_, ?_, ?_, ?_, ?_, ?_, ?_⟩ <;>
    simp [configureServerLibraryAndFilename, h]

/-- Witness for C10: a concrete options record with a path-like filename. -/
theorem C10_witness :
    ∃ o2, configureServerLibraryAndFilename (fun s => s)
        ⟨some "app1", some "static/remoteEntry.js", none, [], [], []⟩ =
      Except.ok o2 ∧
      o2.library = some { type := "commonjs-module", name := some "app1" } ∧
      o2.filename = some ((fun s => s) "static/remoteEntry.js") ∧
      o2.name = some "app1" ∧
      o2.remotes = [] ∧
      o2.exposes = [] ∧
      o2.shared = [] :=
  C10_configure_server (fun s => s)
    ⟨some "app1", some "static/remoteEntry.js", none, [], [], []⟩
    "static/remoteEntry.js" rfl
